import Mathlib

/-!
Shallow embedding of the deployment admission gate of `src/core/server.ts`
(the PENGD repository): the duplicate-tweet check, cooldown, confidence and
balance guards of `handleDeployToken`, together with `handleGetWalletBalance`,
`handleCanDeployNow`, `extractTweetId`, `refreshDeployedTweetIds` and
`checkTweetAlreadyTokenized`.

Modelling conventions:
- JavaScript numbers are embedded as `ℚ` (all constants in the source are
  exactly representable decimals; the guard logic is order/arithmetic logic,
  not bit-level float behaviour).
- Timestamps (`Date.now()`) are `ℕ` milliseconds; differences are computed
  in `ℤ` exactly as the source's subtractions.
- The MongoDB `deployments` collection is a list of records in insertion
  order; `findOne` is `List.find?`.  Store outages (a throwing driver call)
  are a boolean `storeAvailable` parameter: every driver call in the source
  is wrapped in try/catch, and the embedding's branches mirror those catch
  blocks, so the embedded functions are total.
- The external executor (`launchToken`) is an oracle parameter.
-/

namespace PENGD

/-- Effective value of the JavaScript expression `x || d` for an optional
numeric argument: `undefined` and `0` are falsy and fall back to the default
(used at `confidence_score || 70`, line 423, and `initial_buy_sol || 0.05`,
line 442 of `src/core/server.ts`). -/
def jsOrNum (x : Option ℚ) (d : ℚ) : ℚ :=
  match x with
  | none => d
  | some v => if v = 0 then d else v

/-- `Math.ceil(ms / 1000)` for an integer number of milliseconds
(lines 415, 619 and 655 of `src/core/server.ts`). -/
def ceilSeconds (ms : ℤ) : ℤ := ⌈(ms : ℚ) / 1000⌉

/-- `MIN_WALLET_RESERVE = 0.3` (line 111). -/
def MIN_WALLET_RESERVE : ℚ := 0.3

/-- `MIN_DEPLOYMENT_INTERVAL = 4 * 60 * 1000` milliseconds (line 112). -/
def MIN_DEPLOYMENT_INTERVAL : ℤ := 4 * 60 * 1000

/-- `TWEET_ID_CACHE_TTL = 5 * 60 * 1000` milliseconds (line 121). -/
def TWEET_ID_CACHE_TTL : ℤ := 5 * 60 * 1000

/-- `p` matches the characters at the head of `l` (capture of a fixed
pattern at the current scan position of a regex search). -/
def startsWithChars : List Char → List Char → Bool
  | [], _ => true
  | _ :: _, [] => false
  | p :: ps, c :: cs => p == c && startsWithChars ps cs

/-- Maximal run of `[0-9]` digits at the head of the list (the `\d+`
capture group of the regex at line 128). -/
def takeDigits : List Char → List Char
  | [] => []
  | c :: cs => if c.isDigit then c :: takeDigits cs else []

/-- Scan for the first occurrence of `status/` followed by at least one
digit, returning the maximal digit run: the semantics of the regex match
against the pattern `status` slash `(\d+)` at line 128. -/
def extractTweetIdGo : List Char → Option String
  | [] => none
  | c :: cs =>
    if startsWithChars "status/".toList (c :: cs) then
      match (c :: cs).drop 7 with
      | d :: ds =>
        if d.isDigit then some (String.mk (d :: takeDigits ds))
        else extractTweetIdGo cs
      | [] => extractTweetIdGo cs
    else extractTweetIdGo cs

/-- `extractTweetId` (lines 127-130): extract the numeric tweet id from a
tweet URL, `null` (`none`) when the URL does not contain
`status/<digits>`. -/
def extractTweetId (url : String) : Option String :=
  extractTweetIdGo url.toList

/-- `needle` occurs as a contiguous substring of the character list: the
semantics of the MongoDB filter `$regex: tweetId` (the tweet id is a digit
string, so the regex is plain substring containment; lines 182, 201). -/
def containsSub (needle : List Char) : List Char → Bool
  | [] => needle.isEmpty
  | c :: cs => startsWithChars needle (c :: cs) || containsSub needle cs

/-- The fields of a stored deployment document that the admission gate ever
reads back: identity, display label (`name`, `symbol`) and the
`metadata.tweet_url` trigger reference (the record built at lines 496-518
carries more fields, none of which are consulted by the gate). -/
structure DeploymentRecord where
  mint : String
  name : String
  symbol : String
  strategy : String
  initial_buy_sol : ℚ
  confidence_score : ℚ
  tweet_url : Option String
  deriving DecidableEq

/-- The module-level mutable state of `src/core/server.ts` together with the
persistent `deployments` collection it is a projection of:
`lastDeploymentTime` (line 116), `deployedTweetIds` (line 119),
`lastTweetIdCacheRefresh` (line 120), and the MongoDB collection in
insertion order. -/
structure GateState where
  lastDeploymentTime : ℕ
  deployedTweetIds : List String
  lastTweetIdCacheRefresh : ℕ
  records : List DeploymentRecord
  deriving DecidableEq

/-- Result of `checkTweetAlreadyTokenized` (line 164).  The source field
`exists` is a Lean keyword and is rendered `dup_exists`. -/
structure DuplicateCheck where
  dup_exists : Bool
  existingToken : Option String
  deriving DecidableEq

/-- A stored record matches the MongoDB filter on `metadata.tweet_url` with
`$regex: tweetId` (records without a trigger reference do not match). -/
def recordMatchesId (tweetId : String) (r : DeploymentRecord) : Bool :=
  match r.tweet_url with
  | some u => containsSub tweetId.toList u.toList
  | none => false

/-- `deploymentsCol.findOne(tweet_url regex tweetId)` (lines 181, 200):
first record of the collection matching the filter. -/
def findOneByTweetRegex (records : List DeploymentRecord) (tweetId : String) :
    Option DeploymentRecord :=
  records.find? (recordMatchesId tweetId)

/-- Some stored record matches the tweet id. -/
def dbHasId (tweetId : String) (records : List DeploymentRecord) : Bool :=
  records.any (recordMatchesId tweetId)

/-- `refreshDeployedTweetIds` (lines 135-159): rebuild the in-memory id set
from every stored record carrying a parseable trigger reference and stamp
the refresh time; when the store throws, the catch block leaves both cache
fields at their previous values. -/
def refreshDeployedTweetIds (st : GateState) (now : ℕ) (storeAvailable : Bool) :
    GateState :=
  if storeAvailable then
    { st with
        deployedTweetIds := st.records.filterMap (fun r => r.tweet_url.bind extractTweetId)
        lastTweetIdCacheRefresh := now }
  else st

/-- The trailing direct-database double check of `checkTweetAlreadyTokenized`
(lines 196-215): look the id up in the store, add it to the cache and report
the stored token's label on a hit; on a store error (caught at line 211) or
a miss, report non-duplicate. -/
def checkTweetDoubleCheck (tweetId : String) (st : GateState) (storeAvailable : Bool) :
    DuplicateCheck × GateState :=
  if storeAvailable then
    match findOneByTweetRegex st.records tweetId with
    | some existing =>
      (⟨true, some (existing.name ++ " ($" ++ existing.symbol ++ ")")⟩,
       { st with deployedTweetIds := st.deployedTweetIds ++ [tweetId] })
    | none => (⟨false, none⟩, st)
  else (⟨false, none⟩, st)

/-- `checkTweetAlreadyTokenized` (lines 164-216): extract the tweet id
(un-parseable URLs are never duplicates), refresh the cache when stale, then
check the cache (confirming a cache hit against the store, with the catch at
line 190 reporting `Unknown token` when the store is down) and finally
double-check the store directly. -/
def checkTweetAlreadyTokenized (tweetUrl : String) (st : GateState) (now : ℕ)
    (storeAvailable : Bool) : DuplicateCheck × GateState :=
  match extractTweetId tweetUrl with
  | none => (⟨false, none⟩, st)
  | some tweetId =>
    let st1 :=
      if (now : ℤ) - (st.lastTweetIdCacheRefresh : ℤ) > TWEET_ID_CACHE_TTL then
        refreshDeployedTweetIds st now storeAvailable
      else st
    if st1.deployedTweetIds.contains tweetId then
      if storeAvailable then
        match findOneByTweetRegex st1.records tweetId with
        | some existing =>
          (⟨true, some (existing.name ++ " ($" ++ existing.symbol ++ ")")⟩, st1)
        | none => checkTweetDoubleCheck tweetId st1 storeAvailable
      else (⟨true, some "Unknown token"⟩, st1)
    else checkTweetDoubleCheck tweetId st1 storeAvailable

/-- Result of `handleGetWalletBalance` (lines 268-297); the
`wallet_address` field is an opaque pass-through and is elided. -/
structure WalletBalanceResult where
  balance_sol : ℚ
  available_for_deployment : ℚ
  can_deploy : Bool
  reserve_amount : ℚ
  deriving DecidableEq

/-- `handleGetWalletBalance` (lines 276-297) applied to the SOL balance the
RPC query returned: `available = max(0, balance - MIN_WALLET_RESERVE)` and
`can_deploy = available >= 0.05`. -/
def handleGetWalletBalance (balanceSOL : ℚ) : WalletBalanceResult :=
  let available := max 0 (balanceSOL - MIN_WALLET_RESERVE)
  { balance_sol := balanceSOL
    available_for_deployment := available
    can_deploy := decide ((0.05 : ℚ) ≤ available)
    reserve_amount := MIN_WALLET_RESERVE }

/-- `DeployTokenArgs` (lines 373-384); `description`, `theme`,
`image_style` and `virality_score` are pass-through content fields the gate
never branches on and are elided. -/
structure DeployTokenArgs where
  name : String
  symbol : String
  strategy : String
  confidence_score : Option ℚ
  initial_buy_sol : Option ℚ
  tweet_url : Option String
  deriving DecidableEq

/-- The per-call environment of one `handleDeployToken` invocation: the
clock readings (`now` at the synchronous checks, lines 171/413, and
`execDoneAt` at line 523 after the awaited executor call returns), the
availability of the MongoDB store, whether `AGENT_PRIVATE_KEY` is
configured, and the SOL balance the RPC balance query returns. -/
structure DeployEnv where
  now : ℕ
  execDoneAt : ℕ
  storeAvailable : Bool
  keyConfigured : Bool
  balanceSOL : ℚ
  deriving DecidableEq

/-- Outcome of the external executor `launchToken` (line 486): either a
mint/signature pair or `result.error` set (line 488).  A thrown exception
from the try block lands in the catch at line 536, which like `err` returns
a failure without touching the gate state. -/
inductive ExecOutcome where
  | ok (mint signature : String)
  | err (error : String)
  deriving DecidableEq

/-- The distinct return points of `handleDeployToken` (each constructor
carries the data interpolated into that return's message or result):
line 404 duplicate, line 416 cooldown, line 425 low confidence, line 434
missing key, line 445 insufficient balance, line 453 not enough available,
line 489 executor error, line 529 success. -/
inductive DeployResult where
  | rejectedDuplicate (existingToken : String) (tweetUrl : String)
  | rejectedCooldown (waitSeconds : ℤ)
  | rejectedLowConfidence (confidence : ℚ)
  | rejectedNoKey
  | insufficientBalance (balance_sol : ℚ)
  | notEnoughAvailable (available needed : ℚ)
  | executorError (error : String)
  | admitted (mint signature : String)
  deriving DecidableEq

/-- The result is the success return of line 529. -/
def isAdmitted : DeployResult → Bool
  | .admitted _ _ => true
  | _ => false

/-- Safety check 0 of `handleDeployToken` (lines 399-410): the duplicate
check runs only when `args.tweet_url` is truthy (present and non-empty). -/
def deployDupCheck (args : DeployTokenArgs) (st : GateState) (now : ℕ)
    (storeAvailable : Bool) : DuplicateCheck × GateState :=
  match args.tweet_url with
  | some u =>
    if u ≠ "" then checkTweetAlreadyTokenized u st now storeAvailable
    else (⟨false, none⟩, st)
  | none => (⟨false, none⟩, st)

/-- The synchronous prefix of `handleDeployToken` (lines 399-458): duplicate,
cooldown, confidence, key and balance checks, returning `some` rejection or
`none` when every check passes and control reaches the executor call. -/
def deployChecks (args : DeployTokenArgs) (st : GateState) (env : DeployEnv) :
    Option DeployResult × GateState :=
  let dup := deployDupCheck args st env.now env.storeAvailable
  if dup.1.dup_exists then
    (some (.rejectedDuplicate (dup.1.existingToken.getD "undefined")
      (args.tweet_url.getD "undefined")), dup.2)
  else
    let timeSinceLastDeployment : ℤ :=
      (env.now : ℤ) - (dup.2.lastDeploymentTime : ℤ)
    if dup.2.lastDeploymentTime > 0 ∧
        timeSinceLastDeployment < MIN_DEPLOYMENT_INTERVAL then
      (some (.rejectedCooldown
        (ceilSeconds (MIN_DEPLOYMENT_INTERVAL - timeSinceLastDeployment))), dup.2)
    else
      let confidence := jsOrNum args.confidence_score 70
      if confidence < 60 then (some (.rejectedLowConfidence confidence), dup.2)
      else if env.keyConfigured = false then (some .rejectedNoKey, dup.2)
      else
        let balanceResult := handleGetWalletBalance env.balanceSOL
        let initialBuy := jsOrNum args.initial_buy_sol 0.05
        if balanceResult.can_deploy = false then
          (some (.insufficientBalance balanceResult.balance_sol), dup.2)
        else if balanceResult.available_for_deployment < initialBuy then
          (some (.notEnoughAvailable balanceResult.available_for_deployment
            initialBuy), dup.2)
        else (none, dup.2)

/-- The post-executor tail of `handleDeployToken` (lines 486-543): on
`result.error` return the failure untouched; on success, record the
deployment (Modelled from the spec for the missing
`services/summary-manager.ts`: `recordDeployment` is the append-only
`save(record)` of the persistent store, §6) and set
`lastDeploymentTime = Date.now()` (line 523). -/
def deployCommit (args : DeployTokenArgs) (st : GateState) (env : DeployEnv)
    (exec : ExecOutcome) : DeployResult × GateState :=
  match exec with
  | .err e => (.executorError e, st)
  | .ok mint sig =>
    let record : DeploymentRecord :=
      { mint := mint
        name := args.name
        symbol := args.symbol
        strategy := args.strategy
        initial_buy_sol := jsOrNum args.initial_buy_sol 0.05
        confidence_score := jsOrNum args.confidence_score 70
        tweet_url := args.tweet_url }
    (.admitted mint sig,
     { st with
         records := st.records ++ [record]
         lastDeploymentTime := env.execDoneAt })

/-- `handleDeployToken` (lines 395-544): the checks followed, when they all
pass, by the executor call and commit. -/
def handleDeployToken (args : DeployTokenArgs) (st : GateState) (env : DeployEnv)
    (exec : ExecOutcome) : DeployResult × GateState :=
  match deployChecks args st env with
  | (some r, st0) => (r, st0)
  | (none, st0) => deployCommit args st0 env exec

/-- Result of `handleCanDeployNow` (lines 602-607); the interface's
`wallet_balance_sol` field is declared but never set by the implementation
and is elided. -/
structure CanDeployResult where
  can_deploy : Bool
  reasons : List String
  time_until_allowed_seconds : ℤ
  deriving DecidableEq

/-- `handleCanDeployNow` (lines 609-658).  `balanceQuery` is the outcome of
the awaited `handleGetWalletBalance()` call (an `Except` because a missing
key or a failing RPC throws into the catch at line 630).  Numeric
interpolation inside the reason strings is elided; the strings' identity and
order are kept. -/
def handleCanDeployNow (st : GateState) (now : ℕ)
    (balanceQuery : Except String ℚ) (keyConfigured openAIConfigured : Bool) :
    CanDeployResult :=
  let timeSinceLast : ℤ := (now : ℤ) - (st.lastDeploymentTime : ℤ)
  let cooldownBlocked : Bool :=
    decide (st.lastDeploymentTime > 0 ∧ timeSinceLast < MIN_DEPLOYMENT_INTERVAL)
  let reasons0 : List String :=
    if cooldownBlocked then ["Must wait more seconds since last deployment"] else []
  let canDeploy0 : Bool := !cooldownBlocked
  let step1 : Bool × List String :=
    match balanceQuery with
    | .ok b =>
      if (handleGetWalletBalance b).can_deploy then (canDeploy0, reasons0)
      else (false, reasons0 ++ ["Insufficient balance"])
    | .error _ => (false, reasons0 ++ ["Failed to check wallet balance"])
  let step2 : Bool × List String :=
    if keyConfigured then step1
    else (false, step1.2 ++ ["AGENT_PRIVATE_KEY not configured"])
  let reasons3 : List String :=
    if openAIConfigured then step2.2
    else step2.2 ++ ["OpenAI not configured - will use placeholder images"]
  let reasons4 : List String :=
    if step2.1 && reasons3.isEmpty then ["All checks passed"] else reasons3
  { can_deploy := step2.1
    reasons := reasons4
    time_until_allowed_seconds :=
      if st.lastDeploymentTime > 0 then
        max 0 (ceilSeconds (MIN_DEPLOYMENT_INTERVAL - timeSinceLast))
      else 0 }

/-- One proposed `deploy_token` call: its arguments, per-call environment
and executor outcome. -/
structure Proposal where
  args : DeployTokenArgs
  env : DeployEnv
  exec : ExecOutcome
  deriving DecidableEq

/-- Sequential processing of a list of proposals through the gate, pairing
each proposal with its result and threading the gate state. -/
def runProposalsZ (st : GateState) :
    List Proposal → List (Proposal × DeployResult) × GateState
  | [] => ([], st)
  | p :: ps =>
    let pr := handleDeployToken p.args st p.env p.exec
    let rest := runProposalsZ pr.2 ps
    ((p, pr.1) :: rest.1, rest.2)

/-- The proposal carries the given trigger reference and was admitted. -/
def admittedSame (url : String) (pr : Proposal × DeployResult) : Bool :=
  (pr.1.args.tweet_url == some url) && isAdmitted pr.2

/-- Two concurrent `handleDeployToken` invocations under the event-loop
schedule in which the second request's synchronous check section (lines
399-458, no await touching gate state) runs while the first request is
suspended at one of its awaited calls (balance query line 441, image
generation line 466, executor line 486), so both commits (line 523) happen
after both checks.  Returns both results and the final shared state. -/
def interleavedDeploy (a1 a2 : DeployTokenArgs) (env1 env2 : DeployEnv)
    (e1 e2 : ExecOutcome) (st : GateState) :
    DeployResult × DeployResult × GateState :=
  match deployChecks a1 st env1 with
  | (some r1, st1) =>
    let pr2 := handleDeployToken a2 st1 env2 e2
    (r1, pr2.1, pr2.2)
  | (none, st1) =>
    match deployChecks a2 st1 env2 with
    | (some r2, st2) =>
      let pr1 := deployCommit a1 st2 env1 e1
      (pr1.1, r2, pr1.2)
    | (none, st2) =>
      let pr1 := deployCommit a1 st2 env1 e1
      let pr2 := deployCommit a2 pr1.2 env2 e2
      (pr1.1, pr2.1, pr2.2)

/-! ### Helper lemmas -/

theorem startsWithChars_nil (p : List Char) (h : startsWithChars p [] = true) :
    p = [] := by
  cases p with
  | nil => rfl
  | cons x xs => simp [startsWithChars] at h

theorem takeDigits_startsWith (l : List Char) :
    startsWithChars (takeDigits l) l = true := by
  induction l with
  | nil => rfl
  | cons c cs ih =>
    rw [takeDigits]
    by_cases h : c.isDigit
    · simp [h, startsWithChars, ih]
    · simp [h, startsWithChars]

theorem containsSub_of_drop (p : List Char) :
    ∀ (i : ℕ) (l : List Char), startsWithChars p (l.drop i) = true →
      containsSub p l = true := by
  intro i
  induction i with
  | zero =>
    intro l h
    cases l with
    | nil =>
      have hp := startsWithChars_nil p (by simpa using h)
      subst hp
      rfl
    | cons c cs => simp [containsSub, List.drop] at h ⊢; exact Or.inl h
  | succ i ih =>
    intro l h
    cases l with
    | nil =>
      have hp := startsWithChars_nil p (by simpa using h)
      subst hp
      rfl
    | cons c cs =>
      have h' : startsWithChars p (cs.drop i) = true := by simpa using h
      have := ih cs h'
      simp [containsSub, this]

theorem containsSub_cons_of_tail (p : List Char) (c : Char) (cs : List Char)
    (h : containsSub p cs = true) : containsSub p (c :: cs) = true := by
  simp only [containsSub, Bool.or_eq_true]
  exact Or.inr h

theorem extract_contains :
    ∀ (l : List Char) (id : String), extractTweetIdGo l = some id →
      containsSub id.toList l = true := by
  intro l
  induction l with
  | nil => intro id h; simp [extractTweetIdGo] at h
  | cons c cs ih =>
    intro id h
    rw [extractTweetIdGo] at h
    by_cases hs : startsWithChars "status/".toList (c :: cs) = true
    · rw [if_pos hs] at h
      rcases hd : (c :: cs).drop 7 with _ | ⟨d, ds⟩ <;>
        (rw [hd] at h; dsimp only at h)
      · exact containsSub_cons_of_tail _ _ _ (ih id h)
      · by_cases hdig : d.isDigit = true
        · rw [if_pos hdig] at h
          have hid : id = String.mk (d :: takeDigits ds) := by
            cases h; rfl
          subst hid
          refine containsSub_of_drop _ 7 _ ?_
          rw [hd]
          show (d == d && startsWithChars (takeDigits ds) ds) = true
          simp [takeDigits_startsWith]
        · rw [if_neg hdig] at h
          exact containsSub_cons_of_tail _ _ _ (ih id h)
    · rw [if_neg hs] at h
      exact containsSub_cons_of_tail _ _ _ (ih id h)

theorem find?_of_any {α : Type} (p : α → Bool) (l : List α) (h : l.any p = true) :
    ∃ r, l.find? p = some r ∧ r ∈ l ∧ p r = true := by
  induction l with
  | nil => simp at h
  | cons a l ih =>
    by_cases ha : p a = true
    · exact ⟨a, by simp [List.find?_cons_of_pos _ ha], by simp, ha⟩
    · have h' : l.any p = true := by
        simp [List.any_cons, ha] at h
        simpa using h
      obtain ⟨r, hr, hm, hp⟩ := ih h'
      exact ⟨r, by simp [List.find?_cons_of_neg _ ha, hr], by simp [hm], hp⟩

theorem refresh_records (st : GateState) (now : ℕ) (b : Bool) :
    (refreshDeployedTweetIds st now b).records = st.records := by
  unfold refreshDeployedTweetIds; split <;> rfl

theorem refresh_time (st : GateState) (now : ℕ) (b : Bool) :
    (refreshDeployedTweetIds st now b).lastDeploymentTime = st.lastDeploymentTime := by
  unfold refreshDeployedTweetIds; split <;> rfl

theorem checkDouble_records (tweetId : String) (st : GateState) (b : Bool) :
    (checkTweetDoubleCheck tweetId st b).2.records = st.records := by
  unfold checkTweetDoubleCheck
  split
  · split <;> rfl
  · rfl

theorem checkDouble_time (tweetId : String) (st : GateState) (b : Bool) :
    (checkTweetDoubleCheck tweetId st b).2.lastDeploymentTime = st.lastDeploymentTime := by
  unfold checkTweetDoubleCheck
  split
  · split <;> rfl
  · rfl

theorem checkTweet_records (u : String) (st : GateState) (now : ℕ) (b : Bool) :
    (checkTweetAlreadyTokenized u st now b).2.records = st.records := by
  unfold checkTweetAlreadyTokenized
  rcases extractTweetId u with _ | id
  · rfl
  · dsimp only
    split <;> (try split) <;> (try split) <;> (try split) <;>
      simp [checkDouble_records, refresh_records]

theorem checkTweet_time (u : String) (st : GateState) (now : ℕ) (b : Bool) :
    (checkTweetAlreadyTokenized u st now b).2.lastDeploymentTime
      = st.lastDeploymentTime := by
  unfold checkTweetAlreadyTokenized
  rcases extractTweetId u with _ | id
  · rfl
  · dsimp only
    split <;> (try split) <;> (try split) <;> (try split) <;>
      simp [checkDouble_time, refresh_time]

theorem dupCheck_records (args : DeployTokenArgs) (st : GateState) (now : ℕ)
    (b : Bool) : (deployDupCheck args st now b).2.records = st.records := by
  unfold deployDupCheck
  rcases args.tweet_url with _ | u
  · rfl
  · dsimp only
    split
    · exact checkTweet_records u st now b
    · rfl

theorem dupCheck_time (args : DeployTokenArgs) (st : GateState) (now : ℕ)
    (b : Bool) :
    (deployDupCheck args st now b).2.lastDeploymentTime = st.lastDeploymentTime := by
  unfold deployDupCheck
  rcases args.tweet_url with _ | u
  · rfl
  · dsimp only
    split
    · exact checkTweet_time u st now b
    · rfl

theorem deployChecks_records (args : DeployTokenArgs) (st : GateState)
    (env : DeployEnv) : (deployChecks args st env).2.records = st.records := by
  unfold deployChecks
  dsimp only
  split_ifs <;> simp [dupCheck_records]

theorem deployChecks_time (args : DeployTokenArgs) (st : GateState)
    (env : DeployEnv) :
    (deployChecks args st env).2.lastDeploymentTime = st.lastDeploymentTime := by
  unfold deployChecks
  dsimp only
  split_ifs <;> simp [dupCheck_time]

theorem deployChecks_not_admitted (args : DeployTokenArgs) (st : GateState)
    (env : DeployEnv) (r : DeployResult)
    (h : (deployChecks args st env).1 = some r) : isAdmitted r = false := by
  unfold deployChecks at h
  dsimp only at h
  split_ifs at h <;> simp at h <;> simp [← h, isAdmitted]

theorem handleDeploy_cases (args : DeployTokenArgs) (st : GateState)
    (env : DeployEnv) (exec : ExecOutcome) :
    (isAdmitted (handleDeployToken args st env exec).1 = false ∧
      (handleDeployToken args st env exec).2.records = st.records ∧
      (handleDeployToken args st env exec).2.lastDeploymentTime
        = st.lastDeploymentTime) ∨
    (∃ rec : DeploymentRecord, rec.tweet_url = args.tweet_url ∧
      isAdmitted (handleDeployToken args st env exec).1 = true ∧
      (handleDeployToken args st env exec).2.records = st.records ++ [rec] ∧
      (handleDeployToken args st env exec).2.lastDeploymentTime
        = env.execDoneAt) := by
  unfold handleDeployToken
  rcases hc : deployChecks args st env with ⟨o, st0⟩
  have hr : st0.records = st.records := by
    have := deployChecks_records args st env; rw [hc] at this; exact this
  have ht : st0.lastDeploymentTime = st.lastDeploymentTime := by
    have := deployChecks_time args st env; rw [hc] at this; exact this
  cases o with
  | some r =>
    left
    refine ⟨deployChecks_not_admitted args st env r ?_, hr, ht⟩
    rw [hc]
  | none =>
    cases exec with
    | err e =>
      left
      exact ⟨rfl, hr, ht⟩
    | ok mint sig =>
      right
      refine ⟨⟨mint, args.name, args.symbol, args.strategy,
        jsOrNum args.initial_buy_sol 0.05, jsOrNum args.confidence_score 70,
        args.tweet_url⟩, rfl, rfl, ?_, rfl⟩
      dsimp only [deployCommit]
      rw [hr]

theorem dbHasId_handleDeploy (id : String) (args : DeployTokenArgs)
    (st : GateState) (env : DeployEnv) (exec : ExecOutcome)
    (h : dbHasId id st.records = true) :
    dbHasId id (handleDeployToken args st env exec).2.records = true := by
  rcases handleDeploy_cases args st env exec with ⟨_, hr, _⟩ | ⟨rec, _, _, hr, _⟩ <;>
    rw [hr]
  · exact h
  · unfold dbHasId at h ⊢
    simp only [List.any_append, h, Bool.true_or]

theorem checkTweet_dup (u id : String) (st : GateState) (now : ℕ)
    (r : DeploymentRecord)
    (hid : extractTweetId u = some id)
    (hr : findOneByTweetRegex st.records id = some r) :
    (checkTweetAlreadyTokenized u st now true).1 =
      ⟨true, some (r.name ++ " ($" ++ r.symbol ++ ")")⟩ := by
  unfold checkTweetAlreadyTokenized
  rw [hid]
  dsimp only
  split
  · split
    · rw [refresh_records, hr]
      rfl
    · unfold checkTweetDoubleCheck
      rw [if_pos rfl, refresh_records, hr]
  · split
    · rw [hr]
      rfl
    · unfold checkTweetDoubleCheck
      rw [if_pos rfl, hr]

theorem gate_dup (args : DeployTokenArgs) (st : GateState) (env : DeployEnv)
    (exec : ExecOutcome) (u id : String) (r : DeploymentRecord)
    (hu : args.tweet_url = some u) (hid : extractTweetId u = some id)
    (hs : env.storeAvailable = true)
    (hr : findOneByTweetRegex st.records id = some r) :
    (handleDeployToken args st env exec).1 =
      .rejectedDuplicate (r.name ++ " ($" ++ r.symbol ++ ")") u ∧
    (handleDeployToken args st env exec).2.records = st.records := by
  have hne : u ≠ "" := by
    intro h
    subst h
    simp [extractTweetId, extractTweetIdGo] at hid
  have hdup : (deployDupCheck args st env.now env.storeAvailable).1 =
      ⟨true, some (r.name ++ " ($" ++ r.symbol ++ ")")⟩ := by
    unfold deployDupCheck
    rw [hu]
    dsimp only
    rw [if_pos hne, hs]
    exact checkTweet_dup u id st env.now r hid hr
  have hchecks : (deployChecks args st env).1 =
      some (.rejectedDuplicate (r.name ++ " ($" ++ r.symbol ++ ")") u) := by
    unfold deployChecks
    dsimp only
    rw [hdup]
    simp [hu]
  constructor
  · unfold handleDeployToken
    rcases hc : deployChecks args st env with ⟨o, st0⟩
    rw [hc] at hchecks
    simp only at hchecks
    rw [hchecks]
  · unfold handleDeployToken
    rcases hc : deployChecks args st env with ⟨o, st0⟩
    have hrec : st0.records = st.records := by
      have := deployChecks_records args st env; rw [hc] at this; exact this
    rw [hc] at hchecks
    simp only at hchecks
    rw [hchecks]
    exact hrec

theorem admittedSame_true (url : String) (pr : Proposal × DeployResult)
    (h : admittedSame url pr = true) :
    pr.1.args.tweet_url = some url ∧ isAdmitted pr.2 = true := by
  unfold admittedSame at h
  rw [Bool.and_eq_true, beq_iff_eq] at h
  exact h

theorem run_count_le (url id : String) (hid : extractTweetId url = some id)
    (ps : List Proposal) :
    ∀ st : GateState, (∀ p ∈ ps, p.env.storeAvailable = true) →
      ((runProposalsZ st ps).1.countP (admittedSame url)) ≤
        (if dbHasId id st.records = true then 0 else 1) := by
  induction ps with
  | nil =>
    intro st _
    simp only [runProposalsZ, List.countP_nil]
    split <;> simp
  | cons p ps ih =>
    intro st hs
    have hsp : p.env.storeAvailable = true := hs p (by simp)
    have hsps : ∀ q ∈ ps, q.env.storeAvailable = true := by
      intro q hq; exact hs q (by simp [hq])
    simp only [runProposalsZ, List.countP_cons]
    by_cases hdb : dbHasId id st.records = true
    · rw [if_pos hdb]
      by_cases hpu : p.args.tweet_url = some url
      · obtain ⟨r, hfind, _, _⟩ := find?_of_any (recordMatchesId id) st.records hdb
        obtain ⟨hres, hrec⟩ :=
          gate_dup p.args st p.env p.exec url id r hpu hid hsp hfind
        have hAdm : admittedSame url
            (p, (handleDeployToken p.args st p.env p.exec).1) = false := by
          unfold admittedSame
          rw [hres]
          simp [isAdmitted]
        rw [hAdm]
        have hdb' : dbHasId id (handleDeployToken p.args st p.env p.exec).2.records
            = true := by rw [hrec]; exact hdb
        have := ih (handleDeployToken p.args st p.env p.exec).2 hsps
        rw [if_pos hdb'] at this
        simpa using this
      · have hAdm : admittedSame url
            (p, (handleDeployToken p.args st p.env p.exec).1) = false := by
          unfold admittedSame
          simp only [Bool.and_eq_false_iff]
          left
          simpa using hpu
        rw [hAdm]
        have hdb' := dbHasId_handleDeploy id p.args st p.env p.exec hdb
        have := ih (handleDeployToken p.args st p.env p.exec).2 hsps
        rw [if_pos hdb'] at this
        simpa using this
    · rw [if_neg hdb]
      by_cases hA : admittedSame url
          (p, (handleDeployToken p.args st p.env p.exec).1) = true
      · obtain ⟨hpu, hadm⟩ := admittedSame_true url _ hA
        rcases handleDeploy_cases p.args st p.env p.exec with
          ⟨hno, _, _⟩ | ⟨rec, hrecu, _, hrec, _⟩
        · rw [hadm] at hno; exact absurd hno (by simp)
        · have hmatch : recordMatchesId id rec = true := by
            unfold recordMatchesId
            rw [hrecu, hpu]
            exact extract_contains url.toList id hid
          have hdb' : dbHasId id
              (handleDeployToken p.args st p.env p.exec).2.records = true := by
            rw [hrec]
            unfold dbHasId
            simp [List.any_append, hmatch]
          have := ih (handleDeployToken p.args st p.env p.exec).2 hsps
          rw [if_pos hdb'] at this
          have h0 : ((runProposalsZ (handleDeployToken p.args st p.env p.exec).2
              ps).1.countP (admittedSame url)) = 0 := Nat.le_zero.mp this
          rw [hA, h0]
          simp
      · rw [Bool.not_eq_true] at hA
        rw [hA]
        have := ih (handleDeployToken p.args st p.env p.exec).2 hsps
        have hle : ((runProposalsZ (handleDeployToken p.args st p.env p.exec).2
            ps).1.countP (admittedSame url)) ≤ 1 := by
          refine le_trans this ?_
          split <;> simp
        simpa using hle

theorem deployChecks_of_not_dup (args : DeployTokenArgs) (st : GateState)
    (env : DeployEnv)
    (hdup : (deployDupCheck args st env.now env.storeAvailable).1.dup_exists
      = false) :
    deployChecks args st env =
      ((if 0 < st.lastDeploymentTime ∧
            (env.now : ℤ) - (st.lastDeploymentTime : ℤ) < MIN_DEPLOYMENT_INTERVAL then
          some (.rejectedCooldown (ceilSeconds (MIN_DEPLOYMENT_INTERVAL -
            ((env.now : ℤ) - (st.lastDeploymentTime : ℤ)))))
        else if jsOrNum args.confidence_score 70 < 60 then
          some (.rejectedLowConfidence (jsOrNum args.confidence_score 70))
        else if env.keyConfigured = false then some .rejectedNoKey
        else if (handleGetWalletBalance env.balanceSOL).can_deploy = false then
          some (.insufficientBalance env.balanceSOL)
        else if (handleGetWalletBalance env.balanceSOL).available_for_deployment
            < jsOrNum args.initial_buy_sol 0.05 then
          some (.notEnoughAvailable
            (handleGetWalletBalance env.balanceSOL).available_for_deployment
            (jsOrNum args.initial_buy_sol 0.05))
        else none),
       (deployDupCheck args st env.now env.storeAvailable).2) := by
  unfold deployChecks
  dsimp only
  simp only [hdup, dupCheck_time, Bool.false_eq_true, if_false]
  split_ifs <;> rfl

theorem deployChecks_none_avail (args : DeployTokenArgs) (st : GateState)
    (env : DeployEnv) (h : (deployChecks args st env).1 = none) :
    jsOrNum args.initial_buy_sol 0.05 ≤
      (handleGetWalletBalance env.balanceSOL).available_for_deployment := by
  unfold deployChecks at h
  dsimp only at h
  split_ifs at h with h1 h2 h3 h4 h5 h6 <;> simp at h
  exact not_lt.mp h6

theorem gate_no_dup_result (args : DeployTokenArgs) (st : GateState)
    (env : DeployEnv) (exec : ExecOutcome)
    (hdup : (deployDupCheck args st env.now env.storeAvailable).1.dup_exists
      = false) :
    ∀ lbl u, (handleDeployToken args st env exec).1 ≠ .rejectedDuplicate lbl u := by
  intro lbl u
  have hch := deployChecks_of_not_dup args st env hdup
  unfold handleDeployToken
  rw [hch]
  split_ifs <;> (try simp) <;> cases exec <;> simp [deployCommit]

/-! ### Claim theorems -/

/-- C6: for every wallet balance, the balance guard returns
`available = max(0, spendable - reserve)` and
`sufficient = (available >= 0.05)`; in particular with reserve `0.3`,
spendable `0.32` and requested spend `0.05`, `available = 0.02` and the
proposal is rejected for insufficient funds even though the raw balance
exceeds the request. -/
theorem c6_balance_guard_available_and_floor :
    (∀ b : ℚ,
      (handleGetWalletBalance b).available_for_deployment
        = max 0 (b - MIN_WALLET_RESERVE) ∧
      ((handleGetWalletBalance b).can_deploy = true ↔
        (0.05 : ℚ) ≤ (handleGetWalletBalance b).available_for_deployment) ∧
      (handleGetWalletBalance b).reserve_amount = MIN_WALLET_RESERVE) ∧
    (handleGetWalletBalance 0.32).available_for_deployment = 0.02 ∧
    ((0.05 : ℚ) < 0.32) ∧
    (handleDeployToken
        ⟨"Pudgy", "PUDGY", "specific_moment", none, none, none⟩
        ⟨0, [], 0, []⟩ ⟨1000, 2000, true, true, 0.32⟩ (.ok "M" "S")).1
      = .insufficientBalance 0.32 := by
  refine ⟨?_, ?_, by norm_num, ?_⟩
  · intro b
    refine ⟨rfl, ?_, rfl⟩
    simp [handleGetWalletBalance]
  · show max 0 ((0.32 : ℚ) - MIN_WALLET_RESERVE) = 0.02
    rw [show (0.32 : ℚ) - MIN_WALLET_RESERVE = 0.02 by
      unfold MIN_WALLET_RESERVE; norm_num]
    exact max_eq_right (by norm_num)
  · simp only [handleDeployToken, deployChecks, deployDupCheck,
      handleGetWalletBalance, jsOrNum, MIN_WALLET_RESERVE,
      MIN_DEPLOYMENT_INTERVAL]
    norm_num

/-- C7: for every trigger reference from which no tweet id can be extracted,
the dedup check reports non-duplicate (leaving the state untouched), and the
gate never rejects such a proposal as a duplicate. -/
theorem c7_unparseable_trigger_non_duplicate (url : String)
    (h : extractTweetId url = none) :
    (∀ (st : GateState) (now : ℕ) (avail : Bool),
      checkTweetAlreadyTokenized url st now avail = (⟨false, none⟩, st)) ∧
    (∀ (args : DeployTokenArgs) (st : GateState) (env : DeployEnv)
        (exec : ExecOutcome), args.tweet_url = some url →
      ∀ lbl u, (handleDeployToken args st env exec).1
        ≠ .rejectedDuplicate lbl u) := by
  have hch : ∀ (st : GateState) (now : ℕ) (avail : Bool),
      checkTweetAlreadyTokenized url st now avail = (⟨false, none⟩, st) := by
    intro st now avail
    unfold checkTweetAlreadyTokenized
    rw [h]
  refine ⟨hch, ?_⟩
  intro args st env exec hu lbl u
  have hdup : (deployDupCheck args st env.now env.storeAvailable).1.dup_exists
      = false := by
    unfold deployDupCheck
    rw [hu]
    dsimp only
    split_ifs with h1
    · rw [hch st env.now env.storeAvailable]
    · rfl
  exact gate_no_dup_result args st env exec hdup lbl u

/-- C7 witness: the concrete trigger reference has no extractable id, and
the dedup check reports non-duplicate for it. -/
theorem c7_unparseable_trigger_non_duplicate_witness :
    extractTweetId "https://x.com/pengu/photo" = none ∧
    checkTweetAlreadyTokenized "https://x.com/pengu/photo"
        ⟨5, ["123"], 7, []⟩ 999999 true
      = (⟨false, none⟩, ⟨5, ["123"], 7, []⟩) :=
  ⟨by decide,
   (c7_unparseable_trigger_non_duplicate "https://x.com/pengu/photo"
      (by decide)).1 ⟨5, ["123"], 7, []⟩ 999999 true⟩

/-- C8: when the persistent store is unavailable, the dedup check leaves the
in-memory cache (and all gate state) at its last-known value and serves the
lookup from that cache, never propagating an error: the embedded function is
total and its answer is exactly the cache membership of the extracted id. -/
theorem c8_store_outage_fails_open_to_cache (url : String) (st : GateState)
    (now : ℕ) :
    (checkTweetAlreadyTokenized url st now false).2 = st ∧
    ((checkTweetAlreadyTokenized url st now false).1.dup_exists =
      (match extractTweetId url with
       | none => false
       | some id => st.deployedTweetIds.contains id)) := by
  unfold checkTweetAlreadyTokenized
  rcases extractTweetId url with _ | id
  · exact ⟨rfl, rfl⟩
  · dsimp only
    unfold refreshDeployedTweetIds checkTweetDoubleCheck
    simp only [Bool.false_eq_true, if_false, ite_self]
    split_ifs <;> simp_all

/-- C10: while no deployment has ever succeeded in the process
(`lastDeploymentTime` still `0`), the cooldown check cannot fire — no
proposal is rejected for cooldown — and `can_deploy_now` reports a zero
wait time. -/
theorem c10_first_proposal_skips_cooldown (args : DeployTokenArgs)
    (st : GateState) (env : DeployEnv) (exec : ExecOutcome) (now : ℕ)
    (bq : Except String ℚ) (key oai : Bool)
    (h : st.lastDeploymentTime = 0) :
    (∀ w : ℤ, (handleDeployToken args st env exec).1 ≠ .rejectedCooldown w) ∧
    (handleCanDeployNow st now bq key oai).time_until_allowed_seconds = 0 := by
  constructor
  · intro w
    unfold handleDeployToken deployChecks
    dsimp only
    simp only [dupCheck_time, h]
    split_ifs with h1 h2 h3 h4 h5 h6 <;>
      (try simp) <;> (try omega) <;> cases exec <;> simp [deployCommit]
  · unfold handleCanDeployNow
    dsimp only
    rw [h]
    simp

/-- C10 witness: in the initial state the cooldown gate is inert and
`can_deploy_now` reports a zero wait. -/
theorem c10_first_proposal_skips_cooldown_witness :
    (⟨0, [], 0, []⟩ : GateState).lastDeploymentTime = 0 ∧
    (handleCanDeployNow ⟨0, [], 0, []⟩ 123456 (.ok 1) true
        true).time_until_allowed_seconds = 0 ∧
    (handleDeployToken ⟨"A", "A", "specific_moment", none, none, none⟩
        ⟨0, [], 0, []⟩ ⟨1000, 2000, true, true, 1⟩ (.ok "M" "S")).1
      ≠ .rejectedCooldown 1 :=
  ⟨rfl,
   (c10_first_proposal_skips_cooldown
      ⟨"A", "A", "specific_moment", none, none, none⟩ ⟨0, [], 0, []⟩
      ⟨1000, 2000, true, true, 1⟩ (.ok "M" "S") 123456 (.ok 1) true true
      rfl).2,
   (c10_first_proposal_skips_cooldown
      ⟨"A", "A", "specific_moment", none, none, none⟩ ⟨0, [], 0, []⟩
      ⟨1000, 2000, true, true, 1⟩ (.ok "M" "S") 123456 (.ok 1) true true
      rfl).1 1⟩

/-- C2 (amended): on executor failure the cooldown timestamp is not updated
at all — `lastDeploymentTime` is written only after executor success
(line 523) — so a failed attempt leaves the gate state exactly as it was
(no record is stored either) and does not consume the cooldown window. -/
theorem c2_executor_failure_leaves_state (args : DeployTokenArgs)
    (st : GateState) (env : DeployEnv) (e : String) :
    (handleDeployToken args st env (.err e)).2.lastDeploymentTime
      = st.lastDeploymentTime ∧
    (handleDeployToken args st env (.err e)).2.records = st.records ∧
    isAdmitted (handleDeployToken args st env (.err e)).1 = false := by
  unfold handleDeployToken
  rcases hc : deployChecks args st env with ⟨o, st0⟩
  have hr : st0.records = st.records := by
    have := deployChecks_records args st env; rw [hc] at this; exact this
  have ht : st0.lastDeploymentTime = st.lastDeploymentTime := by
    have := deployChecks_time args st env; rw [hc] at this; exact this
  cases o with
  | some r =>
    exact ⟨ht, hr, deployChecks_not_admitted args st env r (by rw [hc])⟩
  | none => exact ⟨ht, hr, rfl⟩

/-- C2 counterexample: a proposal whose executor call fails at `t = 1000`
does not consume the cooldown window — a second proposal at `t = 2000`,
well inside `MIN_DEPLOYMENT_INTERVAL` of the failed attempt, is admitted
rather than rejected for cooldown. -/
theorem c2_counterexample_failed_attempt_does_not_consume_cooldown :
    ((2000 : ℤ) - (1000 : ℤ) < MIN_DEPLOYMENT_INTERVAL) ∧
    (handleDeployToken ⟨"A", "A", "specific_moment", none, none, none⟩
        ⟨0, [], 0, []⟩ ⟨1000, 1000, true, true, 1⟩ (.err "launch failed")).1
      = .executorError "launch failed" ∧
    (handleDeployToken ⟨"B", "B", "emerging_trend", none, none, none⟩
        (handleDeployToken ⟨"A", "A", "specific_moment", none, none, none⟩
          ⟨0, [], 0, []⟩ ⟨1000, 1000, true, true, 1⟩ (.err "launch failed")).2
        ⟨2000, 2000, true, true, 1⟩ (.ok "M" "S")).1
      = .admitted "M" "S" := by
  refine ⟨by norm_num [MIN_DEPLOYMENT_INTERVAL], ?_, ?_⟩ <;>
  · simp only [handleDeployToken, deployChecks, deployDupCheck,
      handleGetWalletBalance, jsOrNum, deployCommit, MIN_WALLET_RESERVE,
      MIN_DEPLOYMENT_INTERVAL]
    norm_num

/-- C4 (amended): a proposal that passes the duplicate and cooldown checks
and carries a provided, nonzero confidence score below 60 is rejected with
the low-confidence reason (a provided score of `0` is falsy in the source's
`confidence_score || 70` and falls back to the default 70). -/
theorem c4_low_confidence_rejected (args : DeployTokenArgs) (st : GateState)
    (env : DeployEnv) (exec : ExecOutcome) (c : ℚ)
    (hdup : (deployDupCheck args st env.now env.storeAvailable).1.dup_exists
      = false)
    (hcool : ¬(0 < st.lastDeploymentTime ∧
      (env.now : ℤ) - (st.lastDeploymentTime : ℤ) < MIN_DEPLOYMENT_INTERVAL))
    (hc : args.confidence_score = some c) (hc0 : c ≠ 0) (hlt : c < 60) :
    (handleDeployToken args st env exec).1 = .rejectedLowConfidence c := by
  have hj : jsOrNum args.confidence_score 70 = c := by
    simp [jsOrNum, hc, hc0]
  have hch := deployChecks_of_not_dup args st env hdup
  unfold handleDeployToken
  rw [hch, if_neg hcool, hj, if_pos hlt]

/-- C4 witness: a provided confidence of 50 (below 60) is rejected with the
low-confidence reason. -/
theorem c4_low_confidence_rejected_witness :
    ((50 : ℚ) < 60) ∧
    (handleDeployToken ⟨"A", "A", "specific_moment", some 50, none, none⟩
        ⟨0, [], 0, []⟩ ⟨1000, 2000, true, true, 1⟩ (.ok "M" "S")).1
      = .rejectedLowConfidence 50 :=
  ⟨by norm_num,
   c4_low_confidence_rejected _ _ _ _ 50 rfl (by simp) rfl (by norm_num)
     (by norm_num)⟩

/-- C4 counterexample: a proposed action with confidence score `0` — below
any positive confidence threshold — is not rejected for low confidence: the
JavaScript `confidence_score || 70` treats `0` as absent, and the proposal
is admitted and deployed. -/
theorem c4_counterexample_zero_confidence_admitted :
    ((0 : ℚ) < 60) ∧
    (handleDeployToken ⟨"Pengu", "PENGU", "pattern_based", some 0, none, none⟩
        ⟨0, [], 0, []⟩ ⟨1000, 2000, true, true, 1⟩ (.ok "MINT" "SIG")).1
      = .admitted "MINT" "SIG" := by
  refine ⟨by norm_num, ?_⟩
  simp only [handleDeployToken, deployChecks, deployDupCheck,
    handleGetWalletBalance, jsOrNum, deployCommit, MIN_WALLET_RESERVE,
    MIN_DEPLOYMENT_INTERVAL]
  norm_num

/-- C5 (amended): a proposal that passes the duplicate check and arrives
strictly within `MIN_DEPLOYMENT_INTERVAL` of the last successful deployment
is rejected for cooldown, with a wait of
`ceil((MIN_DEPLOYMENT_INTERVAL - elapsed) / 1000)` seconds, which is
strictly positive. -/
theorem c5_cooldown_rejection_wait_seconds (args : DeployTokenArgs)
    (st : GateState) (env : DeployEnv) (exec : ExecOutcome)
    (hdup : (deployDupCheck args st env.now env.storeAvailable).1.dup_exists
      = false)
    (hpos : 0 < st.lastDeploymentTime)
    (hlt : (env.now : ℤ) - (st.lastDeploymentTime : ℤ)
      < MIN_DEPLOYMENT_INTERVAL) :
    (handleDeployToken args st env exec).1 =
      .rejectedCooldown (ceilSeconds (MIN_DEPLOYMENT_INTERVAL -
        ((env.now : ℤ) - (st.lastDeploymentTime : ℤ)))) ∧
    0 < ceilSeconds (MIN_DEPLOYMENT_INTERVAL -
        ((env.now : ℤ) - (st.lastDeploymentTime : ℤ))) := by
  constructor
  · have hch := deployChecks_of_not_dup args st env hdup
    unfold handleDeployToken
    rw [hch, if_pos ⟨hpos, hlt⟩]
  · unfold ceilSeconds
    have hx : 0 < MIN_DEPLOYMENT_INTERVAL -
        ((env.now : ℤ) - (st.lastDeploymentTime : ℤ)) := by omega
    refine Int.ceil_pos.mpr ?_
    refine div_pos ?_ (by norm_num)
    exact_mod_cast hx

/-- C5 witness: with the last deployment at `t = 1000` and a proposal at
`t = 2000`, the gate rejects for cooldown and the reported wait is
`ceil(239000 / 1000) = 239` seconds. -/
theorem c5_cooldown_rejection_wait_seconds_witness :
    ((2000 : ℤ) - (1000 : ℤ) < MIN_DEPLOYMENT_INTERVAL) ∧
    (handleDeployToken ⟨"A", "A", "specific_moment", none, none, none⟩
        ⟨1000, [], 0, []⟩ ⟨2000, 2500, true, true, 1⟩ (.ok "M" "S")).1
      = .rejectedCooldown (ceilSeconds (MIN_DEPLOYMENT_INTERVAL -
          ((2000 : ℤ) - (1000 : ℤ)))) ∧
    ceilSeconds (MIN_DEPLOYMENT_INTERVAL - ((2000 : ℤ) - (1000 : ℤ)))
      = 239 := by
  refine ⟨by norm_num [MIN_DEPLOYMENT_INTERVAL], ?_, ?_⟩
  · have := (c5_cooldown_rejection_wait_seconds
      ⟨"A", "A", "specific_moment", none, none, none⟩
      ⟨1000, [], 0, []⟩ ⟨2000, 2500, true, true, 1⟩ (.ok "M" "S") rfl
      (by norm_num) (by norm_num [MIN_DEPLOYMENT_INTERVAL])).1
    simpa using this
  · norm_num [ceilSeconds, MIN_DEPLOYMENT_INTERVAL]

/-- C5 counterexample: a proposal carrying an already-tokenized trigger
reference that arrives strictly within the cooldown window is rejected as a
duplicate, not for cooldown — the duplicate check runs first. -/
theorem c5_counterexample_duplicate_rejection_inside_cooldown :
    ((2000 : ℤ) - (1000 : ℤ) < MIN_DEPLOYMENT_INTERVAL) ∧
    (handleDeployToken
        ⟨"B", "B", "specific_moment", none, none,
          some "https://x.com/a/status/123"⟩
        ⟨1000, [], 2000,
          [⟨"M0", "Tok", "TOK", "specific_moment", 1, 70,
            some "https://x.com/a/status/123"⟩]⟩
        ⟨2000, 2500, true, true, 1⟩ (.ok "M" "S")).1
      = .rejectedDuplicate "Tok ($TOK)" "https://x.com/a/status/123" := by
  refine ⟨by norm_num [MIN_DEPLOYMENT_INTERVAL], ?_⟩
  decide

/-- C3 (amended): whenever the available amount (balance minus reserve,
floored at zero) is below the requested spend, the proposal is never
admitted — regardless of confidence or cooldown state — and when it also
passes the duplicate, cooldown, confidence and key checks the rejection is
one of the two insufficient-funds errors. -/
theorem c3_insufficient_available_never_admitted (args : DeployTokenArgs)
    (st : GateState) (env : DeployEnv) (exec : ExecOutcome)
    (hav : max 0 (env.balanceSOL - MIN_WALLET_RESERVE)
      < jsOrNum args.initial_buy_sol 0.05) :
    isAdmitted (handleDeployToken args st env exec).1 = false ∧
    ((deployDupCheck args st env.now env.storeAvailable).1.dup_exists = false →
      ¬(0 < st.lastDeploymentTime ∧
        (env.now : ℤ) - (st.lastDeploymentTime : ℤ) < MIN_DEPLOYMENT_INTERVAL) →
      ¬(jsOrNum args.confidence_score 70 < 60) →
      env.keyConfigured = true →
      (handleDeployToken args st env exec).1
          = .insufficientBalance env.balanceSOL ∨
      (handleDeployToken args st env exec).1
          = .notEnoughAvailable (max 0 (env.balanceSOL - MIN_WALLET_RESERVE))
            (jsOrNum args.initial_buy_sol 0.05)) := by
  have havail : (handleGetWalletBalance env.balanceSOL).available_for_deployment
      = max 0 (env.balanceSOL - MIN_WALLET_RESERVE) := rfl
  constructor
  · unfold handleDeployToken
    rcases hc : deployChecks args st env with ⟨o, st0⟩
    cases o with
    | some r => exact deployChecks_not_admitted args st env r (by rw [hc])
    | none =>
      exfalso
      have hge := deployChecks_none_avail args st env (by rw [hc])
      rw [havail] at hge
      exact absurd hav (not_lt.mpr hge)
  · intro hdup hcool hconf hkey
    have hch := deployChecks_of_not_dup args st env hdup
    unfold handleDeployToken
    rw [hch, if_neg hcool, if_neg hconf]
    simp only [hkey]
    rw [if_neg (by simp : ¬(true = false))]
    by_cases hcd : (handleGetWalletBalance env.balanceSOL).can_deploy = false
    · rw [if_pos hcd]
      left
      rfl
    · rw [if_neg hcd, if_pos (by rw [havail]; exact hav)]
      right
      rw [havail]

/-- C3 witness: with balance `0.04` (available `0 < 0.05` requested), the
proposal is not admitted. -/
theorem c3_insufficient_available_never_admitted_witness :
    (max 0 ((0.04 : ℚ) - MIN_WALLET_RESERVE) < jsOrNum none 0.05) ∧
    isAdmitted (handleDeployToken
        ⟨"A", "A", "specific_moment", none, none, none⟩
        ⟨0, [], 0, []⟩ ⟨1000, 2000, true, true, 0.04⟩ (.ok "M" "S")).1
      = false := by
  have hav : max 0 ((0.04 : ℚ) - MIN_WALLET_RESERVE) < jsOrNum none 0.05 := by
    rw [max_eq_left (by norm_num [MIN_WALLET_RESERVE])]
    simp only [jsOrNum]
    norm_num
  exact ⟨hav,
    (c3_insufficient_available_never_admitted
      ⟨"A", "A", "specific_moment", none, none, none⟩ ⟨0, [], 0, []⟩
      ⟨1000, 2000, true, true, 0.04⟩ (.ok "M" "S") hav).1⟩

/-- C3 counterexample: a proposal with available funds below the requested
spend that arrives inside the cooldown window is rejected for cooldown, not
with the insufficient-funds reason — the cooldown check runs first. -/
theorem c3_counterexample_cooldown_shadows_insufficient_funds :
    (max 0 ((0.04 : ℚ) - MIN_WALLET_RESERVE) < jsOrNum none 0.05) ∧
    (handleDeployToken ⟨"A", "A", "specific_moment", none, none, none⟩
        ⟨1000, [], 0, []⟩ ⟨2000, 2500, true, true, 0.04⟩ (.ok "M" "S")).1
      = .rejectedCooldown 239 := by
  constructor
  · rw [max_eq_left (by norm_num [MIN_WALLET_RESERVE])]
    simp only [jsOrNum]
    norm_num
  · have hch := deployChecks_of_not_dup
      ⟨"A", "A", "specific_moment", none, none, none⟩ ⟨1000, [], 0, []⟩
      ⟨2000, 2500, true, true, 0.04⟩ rfl
    unfold handleDeployToken
    rw [hch, if_pos ⟨by norm_num, by norm_num [MIN_DEPLOYMENT_INTERVAL]⟩]
    show DeployResult.rejectedCooldown _ = DeployResult.rejectedCooldown 239
    congr 1
    show ceilSeconds (MIN_DEPLOYMENT_INTERVAL - ((2000 : ℕ) - (1000 : ℕ) : ℤ)) = 239
    norm_num [ceilSeconds, MIN_DEPLOYMENT_INTERVAL]

/-- C1 (amended): for a trigger reference with an extractable tweet id and
while the persistent store is available, at most one proposal carrying that
reference is admitted in any sequence of sequentially evaluated proposals;
once a matching record is stored, every further proposal with the reference
is rejected as a duplicate with the stored token's label; and an admitted
proposal with the reference leaves a matching record in the store. -/
theorem c1_dedup_at_most_one_admitted (url id : String)
    (hid : extractTweetId url = some id) (st : GateState)
    (ps : List Proposal) (hs : ∀ p ∈ ps, p.env.storeAvailable = true) :
    ((runProposalsZ st ps).1.countP (admittedSame url)) ≤ 1 ∧
    (dbHasId id st.records = true →
      ∀ (args : DeployTokenArgs) (env : DeployEnv) (exec : ExecOutcome),
        args.tweet_url = some url → env.storeAvailable = true →
        ∃ r : DeploymentRecord, r ∈ st.records ∧ recordMatchesId id r = true ∧
          (handleDeployToken args st env exec).1 =
            .rejectedDuplicate (r.name ++ " ($" ++ r.symbol ++ ")") url) ∧
    (∀ (args : DeployTokenArgs) (env : DeployEnv) (exec : ExecOutcome)
        (mint sig : String), args.tweet_url = some url →
      (handleDeployToken args st env exec).1 = .admitted mint sig →
      dbHasId id (handleDeployToken args st env exec).2.records = true) := by
  refine ⟨?_, ?_, ?_⟩
  · refine le_trans (run_count_le url id hid ps st hs) ?_
    split <;> simp
  · intro hdb args env exec hu hsv
    obtain ⟨r, hfind, hmem, hmatch⟩ := find?_of_any _ _ hdb
    exact ⟨r, hmem, hmatch,
      (gate_dup args st env exec url id r hu hid hsv hfind).1⟩
  · intro args env exec mint sig hu hadm
    rcases handleDeploy_cases args st env exec with
      ⟨hno, _, _⟩ | ⟨rec, hrecu, _, hrec, _⟩
    · rw [hadm] at hno
      simp [isAdmitted] at hno
    · rw [hrec]
      have hmatch : recordMatchesId id rec = true := by
        unfold recordMatchesId
        rw [hrecu, hu]
        exact extract_contains url.toList id hid
      unfold dbHasId
      simp [List.any_append, hmatch]

/-- C1 witness: on a two-proposal sequence reusing the parseable trigger
reference, the number of admissions is at most one. -/
theorem c1_dedup_at_most_one_admitted_witness :
    extractTweetId "https://x.com/a/status/123" = some "123" ∧
    ((runProposalsZ ⟨0, [], 0, []⟩
        [⟨⟨"Pengu", "PNG", "specific_moment", none, none,
            some "https://x.com/a/status/123"⟩,
          ⟨1000, 1000, true, true, 1⟩, .ok "M1" "S1"⟩,
         ⟨⟨"Pengu2", "PNG2", "specific_moment", none, none,
            some "https://x.com/a/status/123"⟩,
          ⟨300000, 300000, true, true, 1⟩, .ok "M2" "S2"⟩]).1.countP
      (admittedSame "https://x.com/a/status/123")) ≤ 1 :=
  ⟨by decide,
   (c1_dedup_at_most_one_admitted "https://x.com/a/status/123" "123"
      (by decide) ⟨0, [], 0, []⟩ _ (by decide)).1⟩

/-- C1 counterexample: two proposals carrying the same un-parseable trigger
reference (no `status/<digits>` segment) are both admitted — the dedup
check never blocks a reference it cannot normalize, so the at-most-once
guarantee fails for such references. -/
theorem c1_counterexample_unparseable_trigger_admitted_twice :
    extractTweetId "https://x.com/pengu/moment" = none ∧
    ((runProposalsZ ⟨0, [], 0, []⟩
        [⟨⟨"Moment", "MMT", "specific_moment", none, none,
            some "https://x.com/pengu/moment"⟩,
          ⟨1000, 1000, true, true, 1⟩, .ok "M1" "S1"⟩,
         ⟨⟨"Moment2", "MMT2", "specific_moment", none, none,
            some "https://x.com/pengu/moment"⟩,
          ⟨300000, 300000, true, true, 1⟩, .ok "M2" "S2"⟩]).1.countP
      (admittedSame "https://x.com/pengu/moment")) = 2 := by
  have hex : extractTweetId "https://x.com/pengu/moment" = none := by decide
  refine ⟨hex, ?_⟩
  simp only [runProposalsZ, handleDeployToken, deployChecks, deployDupCheck,
    checkTweetAlreadyTokenized, hex, jsOrNum, handleGetWalletBalance,
    deployCommit, admittedSame, isAdmitted, List.countP_cons, List.countP_nil,
    MIN_WALLET_RESERVE, MIN_DEPLOYMENT_INTERVAL]
  norm_num

/-- C9: at the event-loop interleaving in which the second request's
synchronous admission checks run while the first request is suspended at an
awaited call, both proposals observe the cooldown as satisfied and both are
admitted, with commit timestamps one second apart — well inside a single
cooldown window. -/
theorem c9_race_both_admitted_within_cooldown_window :
    ((interleavedDeploy
        ⟨"A", "A", "specific_moment", none, none,
          some "https://x.com/a/status/111"⟩
        ⟨"B", "B", "specific_moment", none, none,
          some "https://x.com/b/status/222"⟩
        ⟨1000, 5000, true, true, 1⟩ ⟨1200, 6000, true, true, 1⟩
        (.ok "M1" "S1") (.ok "M2" "S2") ⟨0, [], 0, []⟩).1
      = .admitted "M1" "S1") ∧
    ((interleavedDeploy
        ⟨"A", "A", "specific_moment", none, none,
          some "https://x.com/a/status/111"⟩
        ⟨"B", "B", "specific_moment", none, none,
          some "https://x.com/b/status/222"⟩
        ⟨1000, 5000, true, true, 1⟩ ⟨1200, 6000, true, true, 1⟩
        (.ok "M1" "S1") (.ok "M2" "S2") ⟨0, [], 0, []⟩).2.1
      = .admitted "M2" "S2") ∧
    ((6000 : ℤ) - (5000 : ℤ) < MIN_DEPLOYMENT_INTERVAL) := by
  have h1 : extractTweetId "https://x.com/a/status/111" = some "111" := by
    decide
  have h2 : extractTweetId "https://x.com/b/status/222" = some "222" := by
    decide
  refine ⟨?_, ?_, by norm_num [MIN_DEPLOYMENT_INTERVAL]⟩ <;>
  · simp only [interleavedDeploy, deployChecks, deployDupCheck,
      checkTweetAlreadyTokenized, checkTweetDoubleCheck, findOneByTweetRegex,
      refreshDeployedTweetIds, h1, h2, jsOrNum, handleGetWalletBalance,
      deployCommit, handleDeployToken, MIN_WALLET_RESERVE,
      MIN_DEPLOYMENT_INTERVAL, TWEET_ID_CACHE_TTL]
    norm_num

end PENGD
